import Mathlib

/-!
Shallow embedding of the browser search client (`src/public/js/client.js`)
and verification of the specification's claims about it.

The script keeps module-level session state (result accumulator, per-category
counters, a reveal cursor) mutated by socket event handlers, renders results
in pages of five, and resolves video URLs to iframe embed fragments with a
fixed priority list of regular expressions.  Every definition below is
translated from that source file.
-/

namespace BrowserClient

/-! ## 1. The video-link resolver (`createVideoEmbed`, lines 180–246)

The JavaScript matches the URL against a fixed list of regular expressions
with `url.match(pattern)` (case-insensitive, unanchored: the engine tries
each start position left to right).  Each pattern has the shape

  optional `http://`/`https://` · optional `www.` · a literal ·
  one capture group that greedily takes a maximal non-empty run of
  characters from a character class, with nothing after it.

For such patterns the backtracking search is deterministic: the optional
prefixes never overlap the literals (the literals start with
`y`/`v`/`p`/`d`, never `h` or `w`), the `https?` alternatives are disjoint,
and the two Dailymotion path alternatives `/video` and `/hub` diverge at
their second character.  So `url.match(p)` succeeds at the first start
position where (greedy prefixes) · literal · non-empty capture succeeds,
and the capture is the maximal run allowed by its class.  We model exactly
that on `List Char`.
-/

/-- Case-insensitive literal prefix stripping (the `i` regex flag applied to
the literal parts of the patterns; pattern text is given in lower case). -/
def stripPrefixCI : List Char → List Char → Option (List Char)
  | [], s => some s
  | _ :: _, [] => none
  | p :: ps, c :: cs => if c.toLower = p then stripPrefixCI ps cs else none

/-- `(?:https?:\/\/)?` — greedy, tries `https://` then `http://`, else
consumes nothing. -/
def stripProtocol (s : List Char) : List Char :=
  match stripPrefixCI "https://".toList s with
  | some r => r
  | none =>
    match stripPrefixCI "http://".toList s with
    | some r => r
    | none => s

/-- `(?:www\.)?` — greedy optional `www.`. -/
def stripWww (s : List Char) : List Char :=
  match stripPrefixCI "www.".toList s with
  | some r => r
  | none => s

/-- A greedy one-or-more capture group `([class]+)` with nothing after it:
the maximal run of class characters, which must be non-empty
(`match[1]` is then a non-empty string, hence truthy in the JS guard
`match && match[1]`). -/
def captureClass (p : Char → Bool) (s : List Char) : Option (List Char) :=
  let t := s.takeWhile p
  if t.isEmpty then none else some t

/-- `[^&#]` (the class of the `watch?v=` capture). -/
def notAmpHash (c : Char) : Bool := !(c == '&') && !(c == '#')

/-- `[^?&#]` (the class of the other three YouTube captures). -/
def notQAmpHash (c : Char) : Bool := !(c == '?') && !(c == '&') && !(c == '#')

/-- `[a-zA-Z0-9]` (the Dailymotion capture class). -/
def alnumAscii (c : Char) : Bool := c.isAlpha || c.isDigit

/-- One pattern attempted at a fixed start position:
optional protocol, optional `www.`, the literal, then the capture. -/
def matchPatternAt (lit : List Char) (cls : Char → Bool) (s : List Char) :
    Option (List Char) :=
  match stripPrefixCI lit (stripWww (stripProtocol s)) with
  | some r => captureClass cls r
  | none => none

/-- `/(?:https?:\/\/)?(?:www\.)?dailymotion\.com(?:\/video|\/hub)\/([a-zA-Z0-9]+)/i`
at a fixed start position: the alternation `(?:\/video|\/hub)` tried in
order, then `\/`, then the capture. -/
def matchDailymotionMainAt (s : List Char) : Option (List Char) :=
  match stripPrefixCI "dailymotion.com".toList (stripWww (stripProtocol s)) with
  | none => none
  | some r =>
    let afterPath :=
      match stripPrefixCI "/video".toList r with
      | some r2 => some r2
      | none => stripPrefixCI "/hub".toList r
    match afterPath with
    | none => none
    | some r2 =>
      match stripPrefixCI "/".toList r2 with
      | none => none
      | some r3 => captureClass alnumAscii r3

/-- `url.match(pattern)` for an unanchored pattern: the first start
position (left to right) at which the pattern matches; yields the capture. -/
def findCapture (pat : List Char → Option (List Char)) : List Char → Option (List Char)
  | [] => none
  | c :: rest =>
    match pat (c :: rest) with
    | some v => some v
    | none => findCapture pat rest

/-- The four `youtubePatterns`, in source order (lines 186–191). -/
def youtubePatterns : List (List Char → Option (List Char)) :=
  [ matchPatternAt "youtube.com/watch?v=".toList notAmpHash
  , matchPatternAt "youtube.com/embed/".toList notQAmpHash
  , matchPatternAt "youtube.com/v/".toList notQAmpHash
  , matchPatternAt "youtu.be/".toList notQAmpHash ]

/-- The two `vimeoPatterns` (lines 194–197). -/
def vimeoPatterns : List (List Char → Option (List Char)) :=
  [ matchPatternAt "vimeo.com/".toList Char.isDigit
  , matchPatternAt "player.vimeo.com/video/".toList Char.isDigit ]

/-- The two `dailymotionPatterns` (lines 200–203). -/
def dailymotionPatterns : List (List Char → Option (List Char)) :=
  [ matchDailymotionMainAt
  , matchPatternAt "dai.ly/".toList alnumAscii ]

/-- `for (const pattern of patterns) { const match = url.match(pattern);
if (match && match[1]) return …id… }` — first pattern in the list that
matches somewhere in the URL wins. -/
def matchPatterns (pats : List (List Char → Option (List Char))) (s : List Char) :
    Option (List Char) :=
  match pats with
  | [] => none
  | p :: rest =>
    match findCapture p s with
    | some v => some v
    | none => matchPatterns rest s

/-- The YouTube iframe template literal (lines 210–214), exactly as in the
source, parameterised by the captured id `match[1]`. -/
def youtubeEmbedHtml (id : String) : String :=
  "<iframe \n                src=\"https://www.youtube.com/embed/" ++ id ++
  "?autoplay=0&rel=0\" \n                allow=\"accelerometer; autoplay; clipboard-write; encrypted-media; gyroscope; picture-in-picture\" \n                allowfullscreen>\n            </iframe>"

/-- The Vimeo iframe template literal (lines 223–227). -/
def vimeoEmbedHtml (id : String) : String :=
  "<iframe \n                src=\"https://player.vimeo.com/video/" ++ id ++
  "?autoplay=0\" \n                allow=\"autoplay; fullscreen; picture-in-picture\" \n                allowfullscreen>\n            </iframe>"

/-- The Dailymotion iframe template literal (lines 236–240). -/
def dailymotionEmbedHtml (id : String) : String :=
  "<iframe \n                src=\"https://www.dailymotion.com/embed/video/" ++ id ++
  "?autoplay=0\" \n                allow=\"autoplay; fullscreen; picture-in-picture\" \n                allowfullscreen>\n            </iframe>"

/-- `createVideoEmbed(url)` (lines 180–246).  JavaScript returns three kinds
of values: the empty string (the `if (!url) return ''` guard, a falsy `url`
of type string being exactly `''`), an iframe fragment, or `null`.  We model
the return value as `Option String` with `none` for `null`; note that the
empty-URL guard yields `some ""`, not `none`. -/
def createVideoEmbed (url : String) : Option String :=
  if url = "" then some ""
  else
    match matchPatterns youtubePatterns url.toList with
    | some id => some (youtubeEmbedHtml (String.mk id))
    | none =>
      match matchPatterns vimeoPatterns url.toList with
      | some id => some (vimeoEmbedHtml (String.mk id))
      | none =>
        match matchPatterns dailymotionPatterns url.toList with
        | some id => some (dailymotionEmbedHtml (String.mk id))
        | none => none

/-- A string is an embed fragment when it is one of the three provider
iframe templates instantiated at some id. -/
def IsEmbedFragment (s : String) : Prop :=
  (∃ id, s = youtubeEmbedHtml id) ∨ (∃ id, s = vimeoEmbedHtml id) ∨
  (∃ id, s = dailymotionEmbedHtml id)

/-- Case-sensitive list prefix test (for stating "the fragment contains the
extracted id"). -/
def listStartsWith : List Char → List Char → Bool
  | [], _ => true
  | _ :: _, [] => false
  | a :: as, b :: bs => a == b && listStartsWith as bs

/-- `needle` occurs as a contiguous substring of the list. -/
def listContains (needle : List Char) : List Char → Bool
  | [] => needle.isEmpty
  | c :: rest => listStartsWith needle (c :: rest) || listContains needle rest

/-- `hay` contains `needle` as a substring. -/
def strContains (hay needle : String) : Bool := listContains needle.toList hay.toList

/-! ## 2. Data model

`SearchResult` as described by the data model: `type` and `url` are required
strings, the remaining fields optional.  Only `type` influences branching in
the handlers. -/

structure SearchResult where
  type : String
  url : String
  title : Option String := none
  description : Option String := none
  source : Option String := none
  platform : Option String := none
  favicon : Option String := none
  thumbnail : Option String := none
  duration : Option String := none
deriving DecidableEq, Repr

/-- A node of the `#results` container: the loading indicator (`#loader`),
a result card built by `createResultElement` for a given result, or the
`#show-more-btn` button whose label shows the remaining count. -/
inductive Node where
  | loader : Node
  | resultCard : SearchResult → Node
  | showMoreBtn : Nat → Node
deriving DecidableEq, Repr

def Node.isShowMoreBtn : Node → Bool
  | .showMoreBtn _ => true
  | _ => false

def Node.isLoader : Node → Bool
  | .loader => true
  | _ => false

/-- The result cards of a container, in document order. -/
def resultCards (l : List Node) : List SearchResult :=
  l.filterMap fun n =>
    match n with
    | .resultCard r => some r
    | _ => none

/-- Number of Show-More buttons in a container. -/
def countShowMore (l : List Node) : Nat := l.countP fun n => n.isShowMoreBtn

/-- The module-level state of the client script: the session state bag
(lines 27–33), the `#results` container, and the status / stats / button
surfaces the handlers write to. -/
structure ClientState where
  totalResults : Nat
  videoResults : Nat
  websiteResults : Nat
  allResults : List SearchResult
  currentlyDisplayedResults : Nat
  container : List Node
  statusMessage : String
  statusType : String
  statsHtml : String
  searchButtonDisabled : Bool
deriving DecidableEq, Repr

/-- `resultsPerPage` (line 33). -/
def resultsPerPage : Nat := 5

/-! ## 3. Helper functions (lines 96–178) -/

/-- `updateStatus(message, type)` (lines 97–102). -/
def updateStatus (message : String) (type : String) (s : ClientState) : ClientState :=
  { s with statusMessage := message, statusType := type }

/-- `clearResults()` (lines 104–112). -/
def clearResults (s : ClientState) : ClientState :=
  { s with container := [], statsHtml := "",
           totalResults := 0, videoResults := 0, websiteResults := 0,
           allResults := [], currentlyDisplayedResults := 0 }

/-- `showLoadingIndicator()` (lines 114–120): prepends a `#loader` node. -/
def showLoadingIndicator (s : ClientState) : ClientState :=
  { s with container := Node.loader :: s.container }

/-- `document.getElementById('loader').remove()`: removes the first loader
node in document order, if any (lines 122–125). -/
def removeFirstLoader : List Node → List Node
  | [] => []
  | n :: rest => if n.isLoader then rest else n :: removeFirstLoader rest

/-- `hideLoadingIndicator()` (lines 122–125). -/
def hideLoadingIndicator (s : ClientState) : ClientState :=
  { s with container := removeFirstLoader s.container }

/-- The `statsElement.innerHTML` template literal of `updateSearchStats`
(lines 129–136); `query = none` models an absent `data.query`, and a present
empty string is falsy in the `data.query ?` conditional. -/
def statsHtmlOf (total videos websites : Nat) (query : Option String) : String :=
  "\n        <div class=\"search-stats\">\n            <span class=\"stat-item\">Total Results: " ++
  toString total ++
  "</span>\n            <span class=\"stat-item\">Videos: " ++ toString videos ++
  "</span>\n            <span class=\"stat-item\">Websites: " ++ toString websites ++
  "</span>\n            " ++
  (match query with
   | some q => if q = "" then "" else "<span class=\"stat-item\">Query: " ++ q ++ "</span>"
   | none => "") ++
  "\n        </div>\n    "

/-- `updateSearchStats(data)` (lines 127–137). -/
def updateSearchStats (total videos websites : Nat) (query : Option String)
    (s : ClientState) : ClientState :=
  { s with statsHtml := statsHtmlOf total videos websites query }

/-- `document.getElementById('show-more-btn').remove()`: removes the first
Show-More button in document order, if any (lines 164–167). -/
def removeFirstShowMore : List Node → List Node
  | [] => []
  | n :: rest => if n.isShowMoreBtn then rest else n :: removeFirstShowMore rest

/-- `showMoreResults` (lines 149–178), phase 1: `endIndex`. -/
def smEndIndex (s : ClientState) : Nat :=
  min (s.currentlyDisplayedResults + resultsPerPage) s.allResults.length

/-- Phase 2: the container after the `for` loop appends a card for each
`allResults[i]`, `currentlyDisplayedResults ≤ i < endIndex`. -/
def smAfterAppend (s : ClientState) : List Node :=
  s.container ++
    (((s.allResults.drop s.currentlyDisplayedResults).take
        (smEndIndex s - s.currentlyDisplayedResults)).map Node.resultCard)

/-- Phase 3: the container after the existing Show-More button (if any) is
removed. -/
def smAfterRemove (s : ClientState) : List Node :=
  removeFirstShowMore (smAfterAppend s)

/-- Phase 4: the final container — a fresh Show-More button labelled with
the remaining count is appended when results remain unrevealed. -/
def smFinalContainer (s : ClientState) : List Node :=
  if smEndIndex s < s.allResults.length then
    smAfterRemove s ++ [Node.showMoreBtn (s.allResults.length - smEndIndex s)]
  else
    smAfterRemove s

/-- `showMoreResults()` (lines 149–178). -/
def showMoreResults (s : ClientState) : ClientState :=
  { s with container := smFinalContainer s,
           currentlyDisplayedResults := smEndIndex s }

/-- `displayResults(results)` (lines 139–147): clears the container
(`innerHTML = ''`), re-assigns `allResults = results` (the argument is the
same array), resets the cursor to 0, then shows the first batch. -/
def displayResults (s : ClientState) : ClientState :=
  showMoreResults { s with container := [], currentlyDisplayedResults := 0 }

/-! ## 4. Socket event handlers (lines 48–94) -/

/-- The `search_started` handler (lines 48–57). -/
def onSearchStarted (message : String) (s : ClientState) : ClientState :=
  let s1 := updateStatus message "info" s
  let s2 := clearResults s1
  let s3 := showLoadingIndicator s2
  let s4 := { s3 with searchButtonDisabled := true }
  { s4 with totalResults := 0, videoResults := 0, websiteResults := 0 }

/-- The `new_result` handler (lines 59–79); `data.result` is a required
`SearchResult` per the payload shape, so the `if (data.result)` guard
passes. -/
def onNewResult (r : SearchResult) (query : String) (s : ClientState) : ClientState :=
  let s1 := { s with totalResults := s.totalResults + 1 }
  let s2 :=
    if r.type = "video" then { s1 with videoResults := s1.videoResults + 1 }
    else if r.type = "website" then { s1 with websiteResults := s1.websiteResults + 1 }
    else s1
  let s3 := { s2 with allResults := s2.allResults ++ [r] }
  let s4 :=
    if s3.allResults.length > s3.currentlyDisplayedResults then displayResults s3 else s3
  updateSearchStats s4.totalResults s4.videoResults s4.websiteResults (some query) s4

/-- The `search_completed` handler (lines 81–87); its payload carries no
`query` field, so the stats template's `data.query ?` branch is falsy. -/
def onSearchCompleted (total videos websites : Nat) (s : ClientState) : ClientState :=
  let s1 := hideLoadingIndicator s
  let s2 := updateStatus ("Search completed. Found " ++ toString total ++ " results.")
    "success" s1
  let s3 := updateSearchStats total videos websites none s2
  { s3 with searchButtonDisabled := false }

/-- The `search_error` handler (lines 89–94). -/
def onSearchError (error : String) (s : ClientState) : ClientState :=
  let s1 := hideLoadingIndicator s
  let s2 := updateStatus ("Error: " ++ error) "error" s1
  { s2 with searchButtonDisabled := false }

/-- The interactions that touch the session state inside one search session:
an inbound `new_result` event, or the user activating the Show-More
affordance (`showMoreButton.onclick = showMoreResults`, line 175). -/
inductive SessionEvent where
  | newResult (r : SearchResult) (query : String)
  | showMoreClick
deriving DecidableEq, Repr

def stepSession (s : ClientState) : SessionEvent → ClientState
  | .newResult r q => onNewResult r q s
  | .showMoreClick => showMoreResults s

def runSession (s : ClientState) (evs : List SessionEvent) : ClientState :=
  evs.foldl stepSession s

/-- The page's state at script initialisation (lines 27–33 and 458). -/
def initialState : ClientState :=
  { totalResults := 0, videoResults := 0, websiteResults := 0,
    allResults := [], currentlyDisplayedResults := 0, container := [],
    statusMessage := "Ready to search", statusType := "info",
    statsHtml := "", searchButtonDisabled := false }

/-! ## 5. The submit listener (lines 428–455) -/

structure SearchTypes where
  videos : Bool
  websites : Bool
deriving DecidableEq, Repr

/-- The payload of an outbound `search_query` event (line 453). -/
structure SearchQueryPayload where
  query : String
  searchTypes : SearchTypes
deriving DecidableEq, Repr

/-- The observable outcome of one `submit` dispatch: the status line written
by `updateStatus` (message and css type), if any, and the list of events
emitted to the socket. -/
structure SubmitOutcome where
  status : Option (String × String)
  emitted : List SearchQueryPayload
deriving DecidableEq, Repr

/-- The characters `String.prototype.trim()` strips: the ECMAScript
WhiteSpace production (TAB, VT, FF, SP, NBSP, ZWNBSP and the Unicode Zs
category: U+1680, U+2000–U+200A, U+202F, U+205F, U+3000) together with the
LineTerminator production (LF, CR, LS U+2028, PS U+2029). -/
def isJsWhitespace (c : Char) : Bool :=
  let n := c.toNat
  n == 0x09 || n == 0x0A || n == 0x0B || n == 0x0C || n == 0x0D || n == 0x20 ||
  n == 0xA0 || n == 0x1680 || (0x2000 ≤ n && n ≤ 0x200A) || n == 0x2028 ||
  n == 0x2029 || n == 0x202F || n == 0x205F || n == 0x3000 || n == 0xFEFF

/-- JavaScript `String.prototype.trim()`: drop leading and trailing
whitespace (and line-terminator) characters. -/
def jsTrim (s : String) : String :=
  String.mk (((s.toList.dropWhile isJsWhitespace).reverse.dropWhile
    isJsWhitespace).reverse)

/-- The `searchForm` submit listener (lines 428–455).  `inputValue` is
`searchInput.value`, `connected` is `socket.connected`, the two Booleans are
the checkbox states.  `!query` on the trimmed string is true exactly for the
empty string. -/
def handleSubmit (inputValue : String) (connected videosChecked websitesChecked : Bool) :
    SubmitOutcome :=
  let query := jsTrim inputValue
  if query = "" then
    { status := some ("Please enter a search query", "error"), emitted := [] }
  else if !connected then
    { status := some ("Not connected to server. Please wait...", "error"), emitted := [] }
  else
    let searchTypes : SearchTypes := { videos := videosChecked, websites := websitesChecked }
    if !searchTypes.videos && !searchTypes.websites then
      { status := some ("Please select at least one search type (Videos or Websites)", "error"),
        emitted := [] }
    else
      { status := none, emitted := [{ query := query, searchTypes := searchTypes }] }

/-! ## 6. The per-card watch toggle (lines 248–333)

`createResultElement` gives each video card a hidden `.video-container`
(`display: 'none'`, lines 276–278) and a Watch-Now button whose click
handler (lines 287–300) toggles on the container's `display` style;
`handleWatchClick` (lines 319–333) fills the container.  Note that the
fallback branch of `handleWatchClick` writes the error message but does not
change `display` (it additionally offers `window.open`, an external effect
not part of the card state). -/

structure VideoCardState where
  display : String
  containerHtml : String
  watchButtonHtml : String
deriving DecidableEq, Repr

def watchNowLabel : String := "<i class=\"fas fa-play\"></i> Watch Now"

def fallbackHtml : String := "<div class=\"error\">Sorry, this video cannot be embedded.</div>"

def closeButtonHtml : String :=
  "<button class=\"close-button\" onclick=\"closeVideo(this)\">Close Video</button>"

/-- A video card as built by `createResultElement` (lines 276–284). -/
def initialVideoCard : VideoCardState :=
  { display := "none", containerHtml := "", watchButtonHtml := watchNowLabel }

/-- `handleWatchClick(resultElement, url)` (lines 319–333).  The JS guard
`if (embedHtml)` is falsy both for `null` and for the empty string. -/
def handleWatchClick (url : String) (c : VideoCardState) : VideoCardState :=
  match createVideoEmbed url with
  | some h =>
    if h = "" then { c with containerHtml := fallbackHtml }
    else { c with containerHtml := h ++ closeButtonHtml, display := "block" }
  | none => { c with containerHtml := fallbackHtml }

/-- The Watch-Now button's click handler (lines 287–300). -/
def watchButtonClick (url : String) (c : VideoCardState) : VideoCardState :=
  if c.display = "none" then
    handleWatchClick url c
  else
    { c with display := "none", containerHtml := "", watchButtonHtml := watchNowLabel }

/-! ## 7. General lemmas about containers and handlers -/

theorem resultCards_append (l m : List Node) :
    resultCards (l ++ m) = resultCards l ++ resultCards m := by
  simp [resultCards]

theorem resultCards_map_resultCard (xs : List SearchResult) :
    resultCards (xs.map Node.resultCard) = xs := by
  induction xs with
  | nil => rfl
  | cons x xs ih => simpa [resultCards] using ih

theorem resultCards_removeFirstShowMore (l : List Node) :
    resultCards (removeFirstShowMore l) = resultCards l := by
  induction l with
  | nil => rfl
  | cons n rest ih =>
    cases n <;> simp [removeFirstShowMore, Node.isShowMoreBtn, resultCards] <;>
      simpa [resultCards] using ih

theorem resultCards_removeFirstLoader (l : List Node) :
    resultCards (removeFirstLoader l) = resultCards l := by
  induction l with
  | nil => rfl
  | cons n rest ih =>
    cases n <;> simp [removeFirstLoader, Node.isLoader, resultCards] <;>
      simpa [resultCards] using ih

theorem countShowMore_append (l m : List Node) :
    countShowMore (l ++ m) = countShowMore l + countShowMore m := by
  simp [countShowMore]

theorem countShowMore_map_resultCard (xs : List SearchResult) :
    countShowMore (xs.map Node.resultCard) = 0 := by
  induction xs with
  | nil => rfl
  | cons x xs ih => simp [countShowMore, Node.isShowMoreBtn]

theorem countShowMore_cons (n : Node) (rest : List Node) :
    countShowMore (n :: rest) = countShowMore rest + if n.isShowMoreBtn then 1 else 0 := by
  simp [countShowMore, List.countP_cons]

theorem countShowMore_removeFirstShowMore_of_le_one (l : List Node)
    (h : countShowMore l ≤ 1) : countShowMore (removeFirstShowMore l) = 0 := by
  induction l with
  | nil => rfl
  | cons n rest ih =>
    rw [countShowMore_cons] at h
    cases hn : n.isShowMoreBtn with
    | true =>
      simp only [hn] at h
      simp only [removeFirstShowMore, hn, if_true]
      simp at h
      omega
    | false =>
      simp only [hn] at h
      simp only [removeFirstShowMore, hn, Bool.false_eq_true, if_false]
      rw [countShowMore_cons, hn]
      simp only [Bool.false_eq_true, if_false, Nat.add_zero]
      simp at h
      exact ih (by omega)

theorem countShowMore_removeFirstLoader (l : List Node) :
    countShowMore (removeFirstLoader l) = countShowMore l := by
  induction l with
  | nil => rfl
  | cons n rest ih =>
    cases n <;>
      simp [removeFirstLoader, Node.isLoader, countShowMore, List.countP_cons,
        Node.isShowMoreBtn] <;>
      simpa [countShowMore] using ih

/-- The session-state fields that `onNewResult` produces, in closed form. -/
theorem onNewResult_allResults (r : SearchResult) (q : String) (s : ClientState) :
    (onNewResult r q s).allResults = s.allResults ++ [r] := by
  simp only [onNewResult, updateSearchStats, displayResults, showMoreResults]
  split_ifs <;> rfl

theorem onNewResult_totalResults (r : SearchResult) (q : String) (s : ClientState) :
    (onNewResult r q s).totalResults = s.totalResults + 1 := by
  simp only [onNewResult, updateSearchStats, displayResults, showMoreResults]
  split_ifs <;> rfl

theorem onNewResult_videoResults (r : SearchResult) (q : String) (s : ClientState) :
    (onNewResult r q s).videoResults =
      if r.type = "video" then s.videoResults + 1 else s.videoResults := by
  simp only [onNewResult, updateSearchStats, displayResults, showMoreResults]
  split_ifs <;> rfl

theorem onNewResult_websiteResults (r : SearchResult) (q : String) (s : ClientState) :
    (onNewResult r q s).websiteResults =
      if r.type = "website" then s.websiteResults + 1 else s.websiteResults := by
  simp only [onNewResult, updateSearchStats, displayResults, showMoreResults]
  rcases hv : decide (r.type = "video") with _ | _
  · simp only [decide_eq_false_iff_not] at hv
    split_ifs <;> rfl
  · simp only [decide_eq_true_eq] at hv
    have hw : ¬ r.type = "website" := by rw [hv]; decide
    split_ifs <;> rfl

theorem showMoreResults_allResults (s : ClientState) :
    (showMoreResults s).allResults = s.allResults := rfl

theorem showMoreResults_currentlyDisplayed (s : ClientState) :
    (showMoreResults s).currentlyDisplayedResults =
      min (s.currentlyDisplayedResults + resultsPerPage) s.allResults.length := rfl

/-- Each session step keeps the reveal cursor within the accumulator length. -/
theorem stepSession_cursor_le (s : ClientState) (e : SessionEvent)
    (h : s.currentlyDisplayedResults ≤ s.allResults.length) :
    (stepSession s e).currentlyDisplayedResults ≤ (stepSession s e).allResults.length := by
  cases e with
  | showMoreClick => exact Nat.min_le_right _ _
  | newResult r q =>
    show (onNewResult r q s).currentlyDisplayedResults ≤ (onNewResult r q s).allResults.length
    simp only [onNewResult, updateSearchStats, displayResults, showMoreResults, smEndIndex]
    split_ifs <;> simp_all [List.length_append] <;> omega

theorem runSession_cursor_le (evs : List SessionEvent) :
    ∀ s : ClientState, s.currentlyDisplayedResults ≤ s.allResults.length →
      (runSession s evs).currentlyDisplayedResults ≤ (runSession s evs).allResults.length := by
  induction evs with
  | nil => exact fun s h => h
  | cons e evs ih => exact fun s h => ih (stepSession s e) (stepSession_cursor_le s e h)

/-- C1 (amended): within a session the cursor stays within the accumulator
length, and Show-More invocations never decrease it. -/
theorem reveal_cursor_bounded_and_showMore_monotone
    (prior : ClientState) (msg : String) (evs : List SessionEvent) (s' : ClientState)
    (h : s' = runSession (onSearchStarted msg prior) evs) :
    s'.currentlyDisplayedResults ≤ s'.allResults.length ∧
    s'.currentlyDisplayedResults ≤ (showMoreResults s').currentlyDisplayedResults := by
  subst h
  have hinv := runSession_cursor_le evs (onSearchStarted msg prior) (Nat.zero_le _)
  refine ⟨hinv, ?_⟩
  rw [showMoreResults_currentlyDisplayed]
  exact Nat.le_min.mpr ⟨Nat.le_add_right _ _, hinv⟩

theorem reveal_cursor_bounded_and_showMore_monotone_witness :
    (runSession (onSearchStarted "Searching..." initialState) []).currentlyDisplayedResults ≤
      (runSession (onSearchStarted "Searching..." initialState) []).allResults.length ∧
    (runSession (onSearchStarted "Searching..." initialState) []).currentlyDisplayedResults ≤
      (showMoreResults (runSession (onSearchStarted "Searching..." initialState) [])).currentlyDisplayedResults :=
  reveal_cursor_bounded_and_showMore_monotone initialState "Searching..." [] _ rfl

/-- A sample video result used in concrete traces. -/
def sampleVideoResult : SearchResult :=
  { type := "video", url := "https://www.youtube.com/watch?v=dQw4w9WgXcQ" }

/-- Six `new_result` events followed by one Show-More activation. -/
def c1EventTrace : List SessionEvent :=
  [ .newResult sampleVideoResult "cats", .newResult sampleVideoResult "cats",
    .newResult sampleVideoResult "cats", .newResult sampleVideoResult "cats",
    .newResult sampleVideoResult "cats", .newResult sampleVideoResult "cats",
    .showMoreClick ]

/-- C1 (counterexample): after six `new_result` events and one Show-More
activation the cursor is 6; one more `new_result` event re-renders via
`displayResults`, which resets the cursor to `min(5, 7) = 5` — it
decreases. -/
theorem reveal_cursor_can_decrease :
    (runSession (onSearchStarted "Searching..." initialState)
        (c1EventTrace ++ [.newResult sampleVideoResult "cats"])).currentlyDisplayedResults <
      (runSession (onSearchStarted "Searching..." initialState)
        c1EventTrace).currentlyDisplayedResults := by
  decide

/-- C2: after any sequence of `new_result` events, the accumulator holds the
received results in order and the counters count them by category. -/
theorem runNewResults_fields (q : String) (rs : List SearchResult) :
    ∀ s : ClientState,
      (runSession s (rs.map (SessionEvent.newResult · q))).allResults = s.allResults ++ rs ∧
      (runSession s (rs.map (SessionEvent.newResult · q))).totalResults =
        s.totalResults + rs.length ∧
      (runSession s (rs.map (SessionEvent.newResult · q))).videoResults =
        s.videoResults + rs.countP (fun x => x.type == "video") ∧
      (runSession s (rs.map (SessionEvent.newResult · q))).websiteResults =
        s.websiteResults + rs.countP (fun x => x.type == "website") := by
  induction rs with
  | nil => intro s; simp [runSession]
  | cons r rs ih =>
    intro s
    have step : runSession s ((r :: rs).map (SessionEvent.newResult · q)) =
        runSession (onNewResult r q s) (rs.map (SessionEvent.newResult · q)) := rfl
    obtain ⟨h1, h2, h3, h4⟩ := ih (onNewResult r q s)
    rw [step]
    refine ⟨?_, ?_, ?_, ?_⟩
    · rw [h1, onNewResult_allResults]; simp
    · rw [h2, onNewResult_totalResults]; simp [List.length_cons]; omega
    · rw [h3, onNewResult_videoResults, List.countP_cons]
      by_cases hv : r.type = "video" <;> (simp [hv]; try omega)
    · rw [h4, onNewResult_websiteResults, List.countP_cons]
      by_cases hw : r.type = "website" <;> (simp [hw]; try omega)

/-- C2: for every sequence of `new_result` events within one session, the
accumulator length equals the number of events and each category counter
counts the events whose `result.type` matches. -/
theorem accumulator_and_counters_correct
    (prior : ClientState) (msg q : String) (rs : List SearchResult) :
    (runSession (onSearchStarted msg prior) (rs.map (SessionEvent.newResult · q))).allResults
        = rs ∧
    (runSession (onSearchStarted msg prior)
        (rs.map (SessionEvent.newResult · q))).totalResults = rs.length ∧
    (runSession (onSearchStarted msg prior)
        (rs.map (SessionEvent.newResult · q))).videoResults =
      rs.countP (fun x => x.type == "video") ∧
    (runSession (onSearchStarted msg prior)
        (rs.map (SessionEvent.newResult · q))).websiteResults =
      rs.countP (fun x => x.type == "website") := by
  obtain ⟨h1, h2, h3, h4⟩ := runNewResults_fields q rs (onSearchStarted msg prior)
  refine ⟨?_, ?_, ?_, ?_⟩
  · rw [h1]; rfl
  · rw [h2]; exact Nat.zero_add _
  · rw [h3]; exact Nat.zero_add _
  · rw [h4]; exact Nat.zero_add _

/-- C3: one invocation of `showMoreResults` advances the cursor by exactly
`min(resultsPerPage, remaining)` and appends exactly the next
`min(resultsPerPage, remaining)` accumulated results, in arrival order. -/
theorem showMoreResults_reveals_next_page (s : ClientState)
    (h : s.currentlyDisplayedResults ≤ s.allResults.length) :
    (showMoreResults s).currentlyDisplayedResults =
      s.currentlyDisplayedResults +
        min resultsPerPage (s.allResults.length - s.currentlyDisplayedResults) ∧
    resultCards (showMoreResults s).container =
      resultCards s.container ++
        (s.allResults.drop s.currentlyDisplayedResults).take
          (min resultsPerPage (s.allResults.length - s.currentlyDisplayedResults)) := by
  have hmin : smEndIndex s =
      s.currentlyDisplayedResults +
        min resultsPerPage (s.allResults.length - s.currentlyDisplayedResults) := by
    simp only [smEndIndex]
    omega
  constructor
  · rw [showMoreResults_currentlyDisplayed, ← hmin]; rfl
  · show resultCards (smFinalContainer s) = _
    have hcards : resultCards (smAfterRemove s) =
        resultCards s.container ++
          (s.allResults.drop s.currentlyDisplayedResults).take
            (smEndIndex s - s.currentlyDisplayedResults) := by
      rw [smAfterRemove, resultCards_removeFirstShowMore, smAfterAppend,
        resultCards_append, resultCards_map_resultCard]
    rw [smFinalContainer]
    split_ifs with hrem
    · rw [resultCards_append, hcards]
      simp [resultCards, hmin]
    · rw [hcards]
      simp [hmin]

theorem showMoreResults_reveals_next_page_witness :
    (showMoreResults { initialState with
        allResults := [sampleVideoResult, sampleVideoResult, sampleVideoResult,
          sampleVideoResult, sampleVideoResult, sampleVideoResult, sampleVideoResult],
        currentlyDisplayedResults := 5 }).currentlyDisplayedResults = 5 + min resultsPerPage 2 ∧
    resultCards (showMoreResults { initialState with
        allResults := [sampleVideoResult, sampleVideoResult, sampleVideoResult,
          sampleVideoResult, sampleVideoResult, sampleVideoResult, sampleVideoResult],
        currentlyDisplayedResults := 5 }).container =
      resultCards ({ initialState with
        allResults := [sampleVideoResult, sampleVideoResult, sampleVideoResult,
          sampleVideoResult, sampleVideoResult, sampleVideoResult, sampleVideoResult],
        currentlyDisplayedResults := 5 } : ClientState).container ++
        (([sampleVideoResult, sampleVideoResult, sampleVideoResult, sampleVideoResult,
          sampleVideoResult, sampleVideoResult, sampleVideoResult] :
            List SearchResult).drop 5).take (min resultsPerPage 2) := by
  have := showMoreResults_reveals_next_page { initialState with
      allResults := [sampleVideoResult, sampleVideoResult, sampleVideoResult,
        sampleVideoResult, sampleVideoResult, sampleVideoResult, sampleVideoResult],
      currentlyDisplayedResults := 5 } (by decide)
  exact this

/-- C4: `search_started` resets all counters, the accumulator, the cursor,
and clears the displayed result cards, whatever the prior state. -/
theorem search_started_resets_session (s : ClientState) (msg : String) :
    (onSearchStarted msg s).totalResults = 0 ∧
    (onSearchStarted msg s).videoResults = 0 ∧
    (onSearchStarted msg s).websiteResults = 0 ∧
    (onSearchStarted msg s).allResults = [] ∧
    (onSearchStarted msg s).currentlyDisplayedResults = 0 ∧
    resultCards (onSearchStarted msg s).container = [] ∧
    (onSearchStarted msg s).statsHtml = "" :=
  ⟨rfl, rfl, rfl, rfl, rfl, rfl, rfl⟩

/-! ## 8. Claims about pagination idempotence and terminal handlers -/

/-- C9: invoking `showMoreResults` when the cursor already equals the
accumulator length appends no result nodes, leaves no Show-More affordance,
keeps the cursor, and at most one affordance exists at every intermediate
point of the invocation. -/
theorem showMore_noop_when_all_displayed (s : ClientState)
    (hc : s.currentlyDisplayedResults = s.allResults.length)
    (hb : countShowMore s.container ≤ 1) :
    resultCards (showMoreResults s).container = resultCards s.container ∧
    countShowMore (showMoreResults s).container = 0 ∧
    (showMoreResults s).currentlyDisplayedResults = s.currentlyDisplayedResults ∧
    countShowMore (smAfterAppend s) ≤ 1 ∧
    countShowMore (smAfterRemove s) = 0 ∧
    countShowMore (smFinalContainer s) ≤ 1 := by
  have hend : smEndIndex s = s.allResults.length := by
    simp only [smEndIndex, hc]
    omega
  have happend : smAfterAppend s = s.container := by
    rw [smAfterAppend, hend, hc]
    simp
  have hrem : countShowMore (smAfterRemove s) = 0 := by
    rw [smAfterRemove, happend]
    exact countShowMore_removeFirstShowMore_of_le_one _ hb
  have hfinal : smFinalContainer s = smAfterRemove s := by
    rw [smFinalContainer, if_neg]
    rw [hend]
    omega
  refine ⟨?_, ?_, ?_, ?_, ?_, ?_⟩
  · show resultCards (smFinalContainer s) = _
    rw [hfinal, smAfterRemove, resultCards_removeFirstShowMore, happend]
  · show countShowMore (smFinalContainer s) = 0
    rw [hfinal, hrem]
  · show smEndIndex s = _
    rw [hend, hc]
  · rw [happend]; exact hb
  · exact hrem
  · rw [hfinal, hrem]; omega

theorem showMore_noop_when_all_displayed_witness :
    resultCards (showMoreResults { initialState with
        allResults := [sampleVideoResult], currentlyDisplayedResults := 1,
        container := [Node.resultCard sampleVideoResult] }).container =
      resultCards ({ initialState with
        allResults := [sampleVideoResult], currentlyDisplayedResults := 1,
        container := [Node.resultCard sampleVideoResult] } : ClientState).container ∧
    countShowMore (showMoreResults { initialState with
        allResults := [sampleVideoResult], currentlyDisplayedResults := 1,
        container := [Node.resultCard sampleVideoResult] }).container = 0 ∧
    (showMoreResults { initialState with
        allResults := [sampleVideoResult], currentlyDisplayedResults := 1,
        container := [Node.resultCard sampleVideoResult] }).currentlyDisplayedResults =
      ({ initialState with
        allResults := [sampleVideoResult], currentlyDisplayedResults := 1,
        container := [Node.resultCard sampleVideoResult] } : ClientState).currentlyDisplayedResults ∧
    countShowMore (smAfterAppend { initialState with
        allResults := [sampleVideoResult], currentlyDisplayedResults := 1,
        container := [Node.resultCard sampleVideoResult] }) ≤ 1 ∧
    countShowMore (smAfterRemove { initialState with
        allResults := [sampleVideoResult], currentlyDisplayedResults := 1,
        container := [Node.resultCard sampleVideoResult] }) = 0 ∧
    countShowMore (smFinalContainer { initialState with
        allResults := [sampleVideoResult], currentlyDisplayedResults := 1,
        container := [Node.resultCard sampleVideoResult] }) ≤ 1 :=
  showMore_noop_when_all_displayed _ (by decide) (by decide)

/-- C10: `search_completed` and `search_error` leave the whole session state
(accumulator, counters, cursor) and the rendered result cards and Show-More
affordance untouched; they only remove the loading indicator, rewrite the
status/stats surfaces, and re-enable the submit button. -/
theorem terminal_handlers_preserve_session (s : ClientState)
    (total videos websites : Nat) (err : String) :
    ((onSearchCompleted total videos websites s).totalResults = s.totalResults ∧
     (onSearchCompleted total videos websites s).videoResults = s.videoResults ∧
     (onSearchCompleted total videos websites s).websiteResults = s.websiteResults ∧
     (onSearchCompleted total videos websites s).allResults = s.allResults ∧
     (onSearchCompleted total videos websites s).currentlyDisplayedResults =
       s.currentlyDisplayedResults ∧
     (onSearchCompleted total videos websites s).container =
       removeFirstLoader s.container ∧
     resultCards (onSearchCompleted total videos websites s).container =
       resultCards s.container ∧
     countShowMore (onSearchCompleted total videos websites s).container =
       countShowMore s.container ∧
     (onSearchCompleted total videos websites s).searchButtonDisabled = false) ∧
    ((onSearchError err s).totalResults = s.totalResults ∧
     (onSearchError err s).videoResults = s.videoResults ∧
     (onSearchError err s).websiteResults = s.websiteResults ∧
     (onSearchError err s).allResults = s.allResults ∧
     (onSearchError err s).currentlyDisplayedResults = s.currentlyDisplayedResults ∧
     (onSearchError err s).container = removeFirstLoader s.container ∧
     resultCards (onSearchError err s).container = resultCards s.container ∧
     countShowMore (onSearchError err s).container = countShowMore s.container ∧
     (onSearchError err s).searchButtonDisabled = false) :=
  ⟨⟨rfl, rfl, rfl, rfl, rfl, rfl,
    resultCards_removeFirstLoader s.container,
    countShowMore_removeFirstLoader s.container, rfl⟩,
   ⟨rfl, rfl, rfl, rfl, rfl, rfl,
    resultCards_removeFirstLoader s.container,
    countShowMore_removeFirstLoader s.container, rfl⟩⟩

/-! ## 9. The submission guards (C7) -/

/-- C7: the three local submission guards each reject with their distinct
message and emit nothing, and a trimmed non-empty query while connected with
at least one category checked emits exactly one `search_query` event with
the trimmed query and the checkbox states as payload. -/
theorem submit_guard_scenarios :
    (∀ (v : String) (c vc wc : Bool), jsTrim v = "" →
        handleSubmit v c vc wc =
          { status := some ("Please enter a search query", "error"), emitted := [] }) ∧
    (∀ (v : String) (vc wc : Bool), jsTrim v ≠ "" →
        handleSubmit v false vc wc =
          { status := some ("Not connected to server. Please wait...", "error"),
            emitted := [] }) ∧
    (∀ v : String, jsTrim v ≠ "" →
        handleSubmit v true false false =
          { status := some ("Please select at least one search type (Videos or Websites)",
              "error"),
            emitted := [] }) ∧
    (∀ (v : String) (vc wc : Bool), jsTrim v ≠ "" → (vc = true ∨ wc = true) →
        handleSubmit v true vc wc =
          { status := none,
            emitted := [{ query := jsTrim v,
                          searchTypes := { videos := vc, websites := wc } }] }) := by
  refine ⟨?_, ?_, ?_, ?_⟩
  · intro v c vc wc h
    simp [handleSubmit, h]
  · intro v vc wc h
    simp [handleSubmit, h]
  · intro v h
    simp [handleSubmit, h]
  · intro v vc wc h hcat
    rcases hcat with rfl | rfl
    · simp [handleSubmit, h]
    · simp [handleSubmit, h]

theorem submit_guard_scenarios_witness :
    handleSubmit "  \t " true true true =
      { status := some ("Please enter a search query", "error"), emitted := [] } ∧
    handleSubmit "cats" false true true =
      { status := some ("Not connected to server. Please wait...", "error"),
        emitted := [] } ∧
    handleSubmit "cats" true false false =
      { status := some ("Please select at least one search type (Videos or Websites)",
          "error"),
        emitted := [] } ∧
    handleSubmit " cats " true true false =
      { status := none,
        emitted := [{ query := jsTrim " cats ",
                      searchTypes := { videos := true, websites := false } }] } :=
  ⟨submit_guard_scenarios.1 "  \t " true true true (by decide),
   submit_guard_scenarios.2.1 "cats" true true (by decide),
   submit_guard_scenarios.2.2.1 "cats" (by decide),
   submit_guard_scenarios.2.2.2 " cats " true false (by decide) (Or.inl rfl)⟩

/-! ## 10. The video resolver claims (C5, C6) -/

set_option maxRecDepth 40000

/-- C5: each of the 8 documented URL-shape variants resolves to the
provider's embed fragment carrying the extracted id; pattern order inside a
family and family order both decide ties; a non-empty URL matching no
pattern yields `null`. -/
theorem video_resolver_round_trip :
    createVideoEmbed "https://www.youtube.com/watch?v=dQw4w9WgXcQ" =
      some (youtubeEmbedHtml "dQw4w9WgXcQ") ∧
    createVideoEmbed "https://www.youtube.com/embed/dQw4w9WgXcQ" =
      some (youtubeEmbedHtml "dQw4w9WgXcQ") ∧
    createVideoEmbed "https://www.youtube.com/v/dQw4w9WgXcQ" =
      some (youtubeEmbedHtml "dQw4w9WgXcQ") ∧
    createVideoEmbed "https://youtu.be/dQw4w9WgXcQ" =
      some (youtubeEmbedHtml "dQw4w9WgXcQ") ∧
    createVideoEmbed "https://vimeo.com/12345678" = some (vimeoEmbedHtml "12345678") ∧
    createVideoEmbed "https://player.vimeo.com/video/12345678" =
      some (vimeoEmbedHtml "12345678") ∧
    createVideoEmbed "https://www.dailymotion.com/video/x7tgad0" =
      some (dailymotionEmbedHtml "x7tgad0") ∧
    createVideoEmbed "https://dai.ly/x7tgad0" = some (dailymotionEmbedHtml "x7tgad0") ∧
    strContains (youtubeEmbedHtml "dQw4w9WgXcQ") "dQw4w9WgXcQ" = true ∧
    strContains (vimeoEmbedHtml "12345678") "12345678" = true ∧
    strContains (dailymotionEmbedHtml "x7tgad0") "x7tgad0" = true ∧
    createVideoEmbed "https://www.youtube.com/embed/abc?src=https://www.youtube.com/watch?v=def" =
      some (youtubeEmbedHtml "def") ∧
    createVideoEmbed "https://vimeo.com/123?u=https://www.youtube.com/watch?v=abc" =
      some (youtubeEmbedHtml "abc") ∧
    createVideoEmbed "https://example.com/article" = none := by
  decide

theorem append_ne_empty_left (a b c : String) (ha : 0 < a.length) : a ++ b ++ c ≠ "" := by
  intro h
  have hl := congrArg String.length h
  rw [String.length_append, String.length_append] at hl
  have h0 : ("" : String).length = 0 := rfl
  omega

theorem isEmbedFragment_ne_empty (s : String) (h : IsEmbedFragment s) : s ≠ "" := by
  rcases h with ⟨id, rfl⟩ | ⟨id, rfl⟩ | ⟨id, rfl⟩
  · simp only [youtubeEmbedHtml]
    exact append_ne_empty_left _ _ _ (by decide)
  · simp only [vimeoEmbedHtml]
    exact append_ne_empty_left _ _ _ (by decide)
  · simp only [dailymotionEmbedHtml]
    exact append_ne_empty_left _ _ _ (by decide)

/-- C6 (counterexample): on the empty string the resolver returns the empty
string — a third outcome that is neither `null` nor an embed fragment. -/
theorem createVideoEmbed_empty_third_outcome :
    ¬ (createVideoEmbed "" = none ∨
        ∃ s, createVideoEmbed "" = some s ∧ IsEmbedFragment s) := by
  intro h
  rcases h with h | ⟨s, hs, hf⟩
  · exact absurd h (by decide)
  · have h2 : (some "" : Option String) = some s := hs
    injection h2 with h3
    exact isEmbedFragment_ne_empty s hf h3.symm

/-- C6 (amended): for every non-empty URL the resolver returns an embed
fragment or `null`; for the empty string it returns the empty string. -/
theorem createVideoEmbed_fragment_or_null :
    (∀ url : String, url ≠ "" →
        createVideoEmbed url = none ∨
          ∃ s, createVideoEmbed url = some s ∧ IsEmbedFragment s) ∧
    createVideoEmbed "" = some "" := by
  constructor
  · intro url h
    unfold createVideoEmbed
    rw [if_neg h]
    cases h1 : matchPatterns youtubePatterns url.toList with
    | some id => exact Or.inr ⟨_, rfl, Or.inl ⟨_, rfl⟩⟩
    | none =>
      cases h2 : matchPatterns vimeoPatterns url.toList with
      | some id => exact Or.inr ⟨_, rfl, Or.inr (Or.inl ⟨_, rfl⟩)⟩
      | none =>
        cases h3 : matchPatterns dailymotionPatterns url.toList with
        | some id => exact Or.inr ⟨_, rfl, Or.inr (Or.inr ⟨_, rfl⟩)⟩
        | none => exact Or.inl rfl
  · rfl

theorem createVideoEmbed_fragment_or_null_witness :
    createVideoEmbed "https://youtu.be/a" = none ∨
      ∃ s, createVideoEmbed "https://youtu.be/a" = some s ∧ IsEmbedFragment s :=
  createVideoEmbed_fragment_or_null.1 "https://youtu.be/a" (by decide)

/-! ## 11. The watch toggle (C8) -/

/-- C8 (code-bug evidence): for an embeddable URL the toggle behaves as the
claim says (first activation reveals the embed, the second clears and
collapses it and restores the label); but for a non-embeddable URL the
fallback branch of `handleWatchClick` never sets `display = 'block'`, so the
container is never revealed and the `display === 'none'` test makes the
second activation rebuild the fallback message instead of collapsing — after
two activations the container still holds the (non-empty) fallback message. -/
theorem watch_toggle_fallback_divergence :
    (watchButtonClick "https://youtu.be/abc" initialVideoCard).display = "block" ∧
    (watchButtonClick "https://youtu.be/abc" initialVideoCard).containerHtml =
      youtubeEmbedHtml "abc" ++ closeButtonHtml ∧
    (watchButtonClick "https://youtu.be/abc"
        (watchButtonClick "https://youtu.be/abc" initialVideoCard)) = initialVideoCard ∧
    (watchButtonClick "https://example.com/article" initialVideoCard).display = "none" ∧
    (watchButtonClick "https://example.com/article" initialVideoCard).containerHtml =
      fallbackHtml ∧
    (watchButtonClick "https://example.com/article"
        (watchButtonClick "https://example.com/article" initialVideoCard)).containerHtml =
      fallbackHtml ∧
    fallbackHtml ≠ "" := by
  decide

end BrowserClient
